import Mathlib

/-!
Verification of the `smart-doc-parser` tool (`tools/smart-doc-parser.py`).

This file gives a shallow embedding of the pure logic of the tool in Lean 4 and
proves the specification claims about it.  Python dictionaries, strings,
integers, tuples and lists are modelled by the `PyVal` type; byte strings by
`List Nat`; external collaborators (the HTTP transport, the PDF libraries,
the OCR endpoint, the `json` codec) are modelled as explicit outcome
parameters, exactly at the boundary where the Python code calls into them.
All string primitives used by the embedding (`strip`, `split`, `lower`,
`endswith`, `in`) are re-implemented structurally over `List Char` so that
every definition evaluates by kernel reduction.
-/

/-- Model of the Python values the tool builds: strings, ints, tuples of
strings (as returned by `re.findall` on a pattern with several groups),
lists, and insertion-ordered dicts. -/
inductive PyVal where
  | str (s : String)
  | int (n : Nat)
  | tup (gs : List String)
  | list (xs : List PyVal)
  | dict (entries : List (String × PyVal))

/-- Python whitespace (`str.split` / `str.strip` with no argument), ASCII
range: space, tab, newline, carriage return, vertical tab, form feed. -/
def isPySpace (c : Char) : Bool :=
  c = ' ' || c = '\t' || c = '\n' || c = '\r' || c = '\x0b' || c = '\x0c'

/-- Python `str.strip()` (no argument): remove leading and trailing
whitespace. -/
def pyStrip (s : String) : String :=
  ⟨((s.data.dropWhile isPySpace).reverse.dropWhile isPySpace).reverse⟩

/-- Helper for `pySplit`: accumulate the current word (reversed) while
scanning. -/
def pySplitGo : List Char → List Char → List String
  | [], acc => if acc.isEmpty then [] else [⟨acc.reverse⟩]
  | c :: rest, acc =>
    if isPySpace c then
      if acc.isEmpty then pySplitGo rest []
      else (⟨acc.reverse⟩ : String) :: pySplitGo rest []
    else pySplitGo rest (c :: acc)

/-- Python `str.split()` with no argument: split on whitespace runs,
discarding empty pieces. -/
def pySplit (s : String) : List String := pySplitGo s.data []

/-- ASCII lower-casing of one character (Python `str.lower`, restricted to
the ASCII inputs the tool deals with in URLs and prompts). -/
def lowerChar (c : Char) : Char :=
  if 'A' ≤ c ∧ c ≤ 'Z' then Char.ofNat (c.toNat + 32) else c

/-- Python `str.lower()`. -/
def pyLower (s : String) : String := ⟨s.data.map lowerChar⟩

/-- Python `str.endswith(suffix)`. -/
def strEndsWith (s suf : String) : Bool := List.isSuffixOf suf.data s.data

/-- Python `str.startswith(prefix)` as a character-list check. -/
def listLeads : List Char → List Char → Bool
  | [], _ => true
  | _ :: _, [] => false
  | p :: ps, c :: cs => p = c && listLeads ps cs

/-- Python `str.startswith(pat)` on strings. -/
def strStartsWith (s pat : String) : Bool := listLeads pat.data s.data

/-- Python `b1.startswith(b2)` on byte strings (bytes as `List Nat`). -/
def bytesLead : List Nat → List Nat → Bool
  | [], _ => true
  | _ :: _, [] => false
  | p :: ps, c :: cs => p = c && bytesLead ps cs

/-- Python substring membership `pat in hay` on byte strings: does `pat`
occur contiguously inside `hay`. -/
def bytesContains (hay pat : List Nat) : Bool :=
  match hay with
  | [] => pat.isEmpty
  | _ :: rest => bytesLead pat hay || bytesContains rest pat

/-- Python substring membership `pat in hay` on character lists. -/
def charsContains (hay pat : List Char) : Bool :=
  match hay with
  | [] => pat.isEmpty
  | _ :: rest => listLeads pat hay || charsContains rest pat

/-- Python `needle in hay` on strings. -/
def strContains (hay needle : String) : Bool := charsContains hay.data needle.data

/-- Bytes of an ASCII string literal, for the magic-byte constants. -/
def strBytes (s : String) : List Nat := s.data.map (fun c => c.toNat)

/-- Insertion-ordered dict lookup (Python `d[k]` / `k in d` on the dicts the
tool builds). -/
def dictGet (entries : List (String × PyVal)) (key : String) : Option PyVal :=
  match entries with
  | [] => none
  | (k, v) :: rest => if k = key then some v else dictGet rest key

/- ## Type detector (`SmartDocParserTool._detect_file_type`) -/

/-- Format tags produced by the detector. -/
inductive FileType where
  | image
  | pdf
  | docx
  | doc
  | unknown
deriving DecidableEq, Repr

/-- Source constant `SUPPORTED_IMAGE_TYPES` (a Python set; all members map
to the same tag, so the list order of the embedding is immaterial). -/
def SUPPORTED_IMAGE_TYPES : List String := [".png", ".jpg", ".jpeg", ".gif", ".webp", ".bmp"]

/-- Source constant `SUPPORTED_PDF_TYPES`. -/
def SUPPORTED_PDF_TYPES : List String := [".pdf"]

/-- Source constant `SUPPORTED_DOCX_TYPES`. -/
def SUPPORTED_DOCX_TYPES : List String := [".docx"]

/-- Source constant `SUPPORTED_DOC_TYPES`. -/
def SUPPORTED_DOC_TYPES : List String := [".doc"]

/-- Magic bytes `%PDF-`. -/
def pdfMagic : List Nat := strBytes "%PDF-"

/-- ZIP local-file-header signature `PK\x03\x04`. -/
def zipMagic : List Nat := strBytes "PK" ++ [3, 4]

/-- Legacy compound-file signature `D0 CF 11 E0 A1 B1 1A E1`. -/
def docMagic : List Nat := [0xd0, 0xcf, 0x11, 0xe0, 0xa1, 0xb1, 0x1a, 0xe1]

/-- Image magic-byte table from the source (`image_signatures`). -/
def imageSignatures : List (List Nat) :=
  [ [0x89] ++ strBytes "PNG" ++ [0x0d, 0x0a, 0x1a, 0x0a]
  , [0xff, 0xd8, 0xff]
  , strBytes "GIF8"
  , strBytes "RIFF"
  , strBytes "BM" ]

/-- Embedding of `_detect_file_type(file_url, file_bytes)`.  URL parsing is
delegated in the source to the stdlib `urlparse`; the embedding takes that
resulting `.path` component as the `urlPath` argument.  Extension checks come
first; magic-byte checks run only when no extension matched and the byte
string is non-empty. -/
def detect_file_type (urlPath : String) (fileBytes : List Nat) : FileType :=
  let pl := pyLower urlPath
  if SUPPORTED_IMAGE_TYPES.any (fun e => strEndsWith pl e) then .image
  else if SUPPORTED_PDF_TYPES.any (fun e => strEndsWith pl e) then .pdf
  else if SUPPORTED_DOCX_TYPES.any (fun e => strEndsWith pl e) then .docx
  else if SUPPORTED_DOC_TYPES.any (fun e => strEndsWith pl e) then .doc
  else if !fileBytes.isEmpty then
    if bytesLead pdfMagic fileBytes then .pdf
    else if bytesLead zipMagic fileBytes &&
        (bytesContains (fileBytes.take 4096) (strBytes "word/") ||
         bytesContains (fileBytes.take 4096) (strBytes "[Content_Types].xml")) then .docx
    else if bytesLead docMagic fileBytes then .doc
    else if imageSignatures.any (fun sig => bytesLead sig fileBytes) then .image
    else .unknown
  else .unknown

/- ## Scanned-document detector (`SmartDocParserTool._is_pdf_scanned`) -/

/-- Outcome of running one PDF text-extraction capability on the document:
either the run throws somewhere (open or page access), or it yields the
per-page extracted texts. -/
inductive PdfTextCap where
  | throws
  | pages (texts : List String)

/-- Total trimmed character count over the first `min 3 pageCount` pages, as
both library branches of `_is_pdf_scanned` compute it. -/
def scannedMeasure (texts : List String) : Nat :=
  ((texts.take (min 3 texts.length)).map (fun t => (pyStrip t).length)).sum

/-- Embedding of `_is_pdf_scanned(file_bytes)`.  `pymupdf` is `none` when
the PyMuPDF library is absent, `some .throws` when it is present but the
measurement throws, `some (.pages ts)` when it succeeds with per-page texts
`ts`; likewise `pypdf2` for the PyPDF2 fallback.  A successful primary run
answers directly; otherwise the secondary is consulted; otherwise the
default is `true`. -/
def is_pdf_scanned (pymupdf pypdf2 : Option PdfTextCap) : Bool :=
  match pymupdf with
  | some (.pages ts) => scannedMeasure ts < 50
  | _ =>
    match pypdf2 with
    | some (.pages ts) => scannedMeasure ts < 50
    | _ => true

/- ## Rasterizer (`SmartDocParserTool._convert_pdf_to_data_urls`) -/

/-- Outcome of handling one PDF page inside the rendering loop: `ok b64`
when render + PIL conversion + PNG encode succeed with base64 payload
`b64`, `notPil` when the converted bitmap fails the `isinstance` check (the
loop `continue`s), `throws` when any step of the iteration raises. -/
inductive RenderOutcome where
  | ok (b64 : String)
  | notPil
  | throws
deriving DecidableEq, Repr

/-- Loop body of `_convert_pdf_to_data_urls`: `data_urls` is accumulated
(in reverse) across iterations; an exception is caught by the
outer `try`, whose `except: pass` falls through to `return data_urls`, so
the pages appended before the exception are kept. -/
def renderLoop : List RenderOutcome → List String → List String
  | [], acc => acc.reverse
  | .ok b64 :: rest, acc => renderLoop rest (("data:image/png;base64," ++ b64) :: acc)
  | .notPil :: rest, acc => renderLoop rest acc
  | .throws :: _, acc => acc.reverse

/-- Embedding of `_convert_pdf_to_data_urls(pdf_bytes)`.  `doc` is `none`
when opening the document (`pdfium.PdfDocument`) throws — the outer `try`
then returns the still-empty list — and `some pages` when the document
opens with the given per-page outcomes. -/
def convert_pdf_to_data_urls (doc : Option (List RenderOutcome)) : List String :=
  match doc with
  | none => []
  | some pages => renderLoop pages []

/- ## Regex engine for `_extract_basic_fields`

The four field patterns of the source are fixed regular expressions run
through `re.findall(pattern, text, re.IGNORECASE)`.  The embedding
transcribes each pattern into a small AST and evaluates it with a
backtracking matcher implementing the `re` semantics the patterns rely on:
leftmost scan, greedy quantifiers with backtracking, left-biased
alternation, capturing groups, and word boundaries. -/

/-- Regular-expression AST: single-character class, sequencing,
alternation, greedy Kleene star, capturing group, word boundary, empty. -/
inductive RE where
  | eps
  | cls (p : Char → Bool)
  | seq (a b : RE)
  | alt (a b : RE)
  | star (a : RE)
  | group (idx : Nat) (a : RE)
  | wb

/-- Captured spans: group index, start, end (latest binding first). -/
abbrev Caps := List (Nat × Nat × Nat)

/-- Python `\w` (ASCII range, which covers the inputs of the tool). -/
def isWordChar (c : Char) : Bool := c.isAlpha || c.isDigit || c = '_'

/-- Python `\b`: exactly one side of position `i` is a word character. -/
def boundaryAt (cs : List Char) (i : Nat) : Bool :=
  let l := if i = 0 then false else
    match cs[i-1]? with
    | some c => isWordChar c
    | none => false
  let r := match cs[i]? with
    | some c => isWordChar c
    | none => false
  l != r

/-- Backtracking matcher in continuation-passing style.  `fuel` bounds the
call depth (pattern depth plus star iterations); alternation and greedy
repetition try the longer/left option first and fall back on continuation
failure, as the Python `re` engine does. -/
def matchRE : Nat → RE → List Char → Nat → Caps →
    (Nat → Caps → Option (Nat × Caps)) → Option (Nat × Caps)
  | 0, _, _, _, _, _ => none
  | _ + 1, .eps, _, i, caps, k => k i caps
  | _ + 1, .cls p, cs, i, caps, k =>
    match cs[i]? with
    | some c => if p c then k (i+1) caps else none
    | none => none
  | fuel + 1, .seq a b, cs, i, caps, k =>
    matchRE fuel a cs i caps (fun j c2 => matchRE fuel b cs j c2 k)
  | fuel + 1, .alt a b, cs, i, caps, k =>
    match matchRE fuel a cs i caps k with
    | some r => some r
    | none => matchRE fuel b cs i caps k
  | fuel + 1, .star a, cs, i, caps, k =>
    match matchRE fuel a cs i caps
        (fun j c2 => if i < j then matchRE fuel (.star a) cs j c2 k else k j c2) with
    | some r => some r
    | none => k i caps
  | fuel + 1, .group idx a, cs, i, caps, k =>
    matchRE fuel a cs i caps (fun j c2 => k j ((idx, i, j) :: c2))
  | _ + 1, .wb, cs, i, caps, k => if boundaryAt cs i then k i caps else none

/-- Structural size of a pattern, used to pick a sufficient fuel. -/
def reSize : RE → Nat
  | .eps => 1
  | .cls _ => 1
  | .wb => 1
  | .seq a b => reSize a + reSize b + 1
  | .alt a b => reSize a + reSize b + 1
  | .star a => reSize a + 1
  | .group _ a => reSize a + 1

/-- Attempt a match anchored at position `i`. -/
def reMatchAt (re : RE) (cs : List Char) (i : Nat) : Option (Nat × Caps) :=
  matchRE ((reSize re + 2) * (cs.length + 2)) re cs i [] (fun j c2 => some (j, c2))

/-- String of the span captured by group `idx` (empty when unset, as
`re.findall` reports unset groups). -/
def capStr (cs : List Char) (caps : Caps) (idx : Nat) : String :=
  match caps.find? (fun e => e.1 = idx) with
  | some (_, a, b) => ⟨(cs.drop a).take (b - a)⟩
  | none => ""

/-- One `findall` result item: with no groups the whole match, with one
group the string of that group, with several groups the tuple of group strings —
the `re.findall` packaging rule. -/
def emitMatch (ng : Nat) (cs : List Char) (i j : Nat) (caps : Caps) : PyVal :=
  if ng = 0 then .str ⟨(cs.drop i).take (j - i)⟩
  else if ng = 1 then .str (capStr cs caps 1)
  else .tup ((List.range ng).map (fun g => capStr cs caps (g+1)))

/-- Left-to-right non-overlapping scan of `re.findall`, fuelled by the
remaining positions. -/
def reScan (re : RE) (ng : Nat) (cs : List Char) : Nat → Nat → List PyVal
  | 0, _ => []
  | fuel + 1, i =>
    if i ≤ cs.length then
      match reMatchAt re cs i with
      | some (j, caps) =>
        emitMatch ng cs i j caps :: reScan re ng cs fuel (if i < j then j else i + 1)
      | none => if i < cs.length then reScan re ng cs fuel (i + 1) else []
    else []

/-- Model of `re.findall(pattern, text, re.IGNORECASE)` for a transcribed
pattern with `ng` capturing groups. -/
def reFindall (re : RE) (ng : Nat) (s : String) : List PyVal :=
  reScan re ng s.data (s.data.length + 2) 0

/-- Literal single character. -/
def reChar (c : Char) : RE := .cls (fun x => x = c)

/-- Case-insensitive literal character (the patterns run under
`re.IGNORECASE`). -/
def reCharCI (c : Char) : RE := .cls (fun x => lowerChar x = lowerChar c)

/-- Pattern `\d`. -/
def reDigit : RE := .cls Char.isDigit

/-- Sequencing of a pattern list. -/
def reSeq (l : List RE) : RE := l.foldr .seq .eps

/-- Greedy `a?`. -/
def reOpt (a : RE) : RE := .alt a .eps

/-- Greedy `a+`. -/
def rePlus (a : RE) : RE := .seq a (.star a)

/-- Exact repetition `a{n}`. -/
def reRep (a : RE) : Nat → RE
  | 0 => .eps
  | n + 1 => .seq a (reRep a n)

/-- Greedy bounded repetition of at most `n` copies (longest first). -/
def reUpTo (a : RE) : Nat → RE
  | 0 => .eps
  | n + 1 => .alt (.seq a (reUpTo a n)) .eps

/-- Greedy `a{n,m}`. -/
def reRepRange (a : RE) (n m : Nat) : RE := .seq (reRep a n) (reUpTo a (m - n))

/-- Greedy `a{n,}`. -/
def reRepAtLeast (a : RE) (n : Nat) : RE := .seq (reRep a n) (.star a)

/-- Case-insensitive literal string such as `USD`. -/
def reLit (s : String) : RE := reSeq (s.data.map reCharCI)

/-- Email pattern from the source:
`\b[A-Za-z0-9._%+-]+@[A-Za-z0-9.-]+\.[A-Z|a-z]{2,}\b` (no groups). -/
def emailRE : RE :=
  reSeq [ .wb
        , rePlus (.cls (fun c => c.isAlpha || c.isDigit || c = '.' || c = '_' || c = '%' || c = '+' || c = '-'))
        , reChar '@'
        , rePlus (.cls (fun c => c.isAlpha || c.isDigit || c = '.' || c = '-'))
        , reChar '.'
        , reRepAtLeast (.cls (fun c => c.isAlpha || c = '|')) 2
        , .wb ]

/-- Phone pattern from the source:
`(?:\+?1[-.\s]?)?\(?([0-9]{3})\)?[-.\s]?([0-9]{3})[-.\s]?([0-9]{4})`
(three capturing groups). -/
def phoneRE : RE :=
  let sep : RE := .cls (fun c => c = '-' || c = '.' || isPySpace c)
  reSeq [ reOpt (reSeq [reOpt (reChar '+'), reChar '1', reOpt sep])
        , reOpt (reChar '(')
        , .group 1 (reRep reDigit 3)
        , reOpt (reChar ')')
        , reOpt sep
        , .group 2 (reRep reDigit 3)
        , reOpt sep
        , .group 3 (reRep reDigit 4) ]

/-- Date pattern from the source: alternation of the two shapes
`\b\d{1,2} S \d{1,2} S \d{2,4}\b` and `\b\d{4} S \d{1,2} S \d{1,2}\b`,
where `S` stands for the separator class of the source matching a slash or a
dash (no groups). -/
def dateRE : RE :=
  let sd : RE := .cls (fun c => c = '/' || c = '-')
  .alt (reSeq [.wb, reRepRange reDigit 1 2, sd, reRepRange reDigit 1 2, sd, reRepRange reDigit 2 4, .wb])
       (reSeq [.wb, reRep reDigit 4, sd, reRepRange reDigit 1 2, sd, reRepRange reDigit 1 2, .wb])

/-- Amount pattern from the source:
`\$\s*\d+(?:,\d{3})*(?:\.\d{2})?|\b\d+(?:,\d{3})*(?:\.\d{2})?\s*(?:USD|EUR|GBP)\b`
(no groups). -/
def amountRE : RE :=
  let thousands : RE := .star (reSeq [reChar ',', reRep reDigit 3])
  let cents : RE := reOpt (reSeq [reChar '.', reRep reDigit 2])
  .alt (reSeq [reChar '$', .star (.cls isPySpace), rePlus reDigit, thousands, cents])
       (reSeq [.wb, rePlus reDigit, thousands, cents, .star (.cls isPySpace),
               .alt (reLit "USD") (.alt (reLit "EUR") (reLit "GBP")), .wb])

/-- Model of `re.findall` for the email field. -/
def emailFindall (text : String) : List PyVal := reFindall emailRE 0 text

/-- Model of `re.findall` for the phone field (three groups, hence tuples). -/
def phoneFindall (text : String) : List PyVal := reFindall phoneRE 3 text

/-- Model of `re.findall` for the date field. -/
def dateFindall (text : String) : List PyVal := reFindall dateRE 0 text

/-- Model of `re.findall` for the amount field. -/
def amountFindall (text : String) : List PyVal := reFindall amountRE 0 text

/- ## Basic field extractor (`SmartDocParserTool._extract_basic_fields`) -/

/-- Gate of the extractor: a field is attempted only when its name or its
plural (the name followed by the letter s) occurs as a substring of the
lower-cased prompt, per the membership tests on `prompt_lower`. -/
def fieldGate (name prompt : String) : Bool :=
  strContains (pyLower prompt) name || strContains (pyLower prompt) (name ++ "s")

/-- Dict contribution of one field: nothing when the gate is closed or no
match; `matches[0]` for a single match; the whole list for several
(`fields[field_name] = matches if len(matches) > 1 else matches[0]`). -/
def fieldEntry (name : String) (gate : Bool) (found : List PyVal) : List (String × PyVal) :=
  if gate then
    match found with
    | [] => []
    | [m] => [(name, m)]
    | ms => [(name, .list ms)]
  else []

/-- Embedding of `_extract_basic_fields(text, prompt)`.  The dict is built
in the `field_patterns` insertion order of the source: email, phone, date,
amount. -/
def extract_basic_fields (text prompt : String) : List (String × PyVal) :=
  fieldEntry "email" (fieldGate "email" prompt) (emailFindall text) ++
  fieldEntry "phone" (fieldGate "phone" prompt) (phoneFindall text) ++
  fieldEntry "date" (fieldGate "date" prompt) (dateFindall text) ++
  fieldEntry "amount" (fieldGate "amount" prompt) (amountFindall text)

/- ## Text post-processing (`SmartDocParserTool._process_extracted_text`) -/

/-- Embedding of `_process_extracted_text(text, prompt)`: whitespace-only
text short-circuits to `{"raw_text": "", "extracted_fields": {}}`;
otherwise the four-key result is built, the counts derived from `text`
(`len(text.split())` and `len(text)`). -/
def process_extracted_text (text prompt : String) : PyVal :=
  if pyStrip text = "" then
    .dict [("raw_text", .str ""), ("extracted_fields", .dict [])]
  else
    .dict [ ("raw_text", .str text)
          , ("extracted_fields", .dict (extract_basic_fields text prompt))
          , ("word_count", .int (pySplit text).length)
          , ("character_count", .int text.length) ]

/- ## OCR pipeline (`SmartDocParserTool._call_ocr_api`) -/

/-- Python truthiness fallback `x or default` on an optional string
(`None` and the empty string are falsy). -/
def pyOrStr (v : Option String) (default : String) : String :=
  match v with
  | some s => if s = "" then default else s
  | none => default

/-- Resolution of `api_key` in `_call_ocr_api`: the per-call override wins
whenever the `api_key` parameter is present (`is not None`), else the
stored credential, else the empty string; the result is stripped. -/
def resolve_api_key (paramGet credGet : String → Option String) : String :=
  let chosen := match paramGet "api_key" with
    | some o => some o
    | none => credGet "api_key"
  pyStrip (pyOrStr chosen "")

/-- Resolution of `base_url` in `_call_ocr_api`: only the stored credential
is consulted (`self.runtime.credentials.get("base_url")`), defaulting to the
fixed provider endpoint; `tool_parameters` is not read for this value. -/
def resolve_base_url (credGet : String → Option String) : String :=
  pyStrip (pyOrStr (credGet "base_url") "https://dashscope.aliyuncs.com/compatible-mode/v1")

/-- Resolution of `model` in `_call_ocr_api`: per-call override when the
`model` parameter is present, else the stored credential, else the
hardcoded `qwen-vl-ocr`; stripped. -/
def resolve_model (paramGet credGet : String → Option String) : String :=
  let chosen := match paramGet "model" with
    | some o => some o
    | none => credGet "model"
  pyStrip (pyOrStr chosen "qwen-vl-ocr")

/-- Shape of one chat-completion response as the source reads it: the list
of choices, each carrying its `message.content` (which may be `None`). -/
structure ChatResp where
  choices : List (Option String)

/-- Extraction of `page_text` from a response: `"\x7b\x7d"` when `choices` is
absent or empty, when `content` is `None`, or when it is the empty string
(`resp.choices[0].message.content or "\x7b\x7d"`). -/
def pageText (resp : ChatResp) : String :=
  match resp.choices with
  | [] => "\x7b\x7d"
  | c :: _ =>
    match c with
    | some s => if s = "" then "\x7b\x7d" else s
    | none => "\x7b\x7d"

/-- Embedding of `safe_json_loads(s)`: parse via the stdlib JSON codec
(modelled as the capability `jsonLoads`, `none` meaning `json.loads`
raised); on failure wrap as `{"raw": s}`. -/
def safe_json_loads (jsonLoads : String → Option PyVal) (s : String) : PyVal :=
  match jsonLoads s with
  | some v => v
  | none => .dict [("raw", .str s)]

/-- Loop body of `_call_ocr_api`: one entry per image, 1-based indices in
input order; a request failure (`world` returns `.error`) records
`{"page": idx, "error": str(e)}` and the loop continues with the next
image. -/
def ocrLoop (jsonLoads : String → Option PyVal) (world : Nat → Except String ChatResp) :
    Nat → List String → List PyVal
  | _, [] => []
  | idx, _ :: rest =>
    (match world idx with
     | .error e => PyVal.dict [("page", .int idx), ("error", .str e)]
     | .ok resp => PyVal.dict [("page", .int idx), ("content", safe_json_loads jsonLoads (pageText resp))])
    :: ocrLoop jsonLoads world (idx + 1) rest

/-- Embedding of `_call_ocr_api(images, prompt, tool_parameters)`.  The
external endpoint is the capability `world`, giving for each 1-based page
index either the string of the raised exception or the response object; the
credential stores are the lookup functions `paramGet` / `credGet`.  The
prompt only flows into the outbound request, which the capability already
accounts for, so it does not appear in the result. -/
def call_ocr_api (images : List String) (jsonLoads : String → Option PyVal)
    (world : Nat → Except String ChatResp)
    (paramGet credGet : String → Option String) : PyVal :=
  let _api_key := resolve_api_key paramGet credGet
  let _base_url := resolve_base_url credGet
  let _model := resolve_model paramGet credGet
  .dict [ ("pages", .list (ocrLoop jsonLoads world 1 images))
        , ("extraction_method", .str "ocr_api") ]

/- ## Legacy DOC processing (`_process_doc`, `_process_doc_with_ocr_fallback`) -/

/-- Embedding of `_process_doc_with_ocr_fallback(file_bytes, prompt,
tool_parameters, reason)`: the `HAS_PYMUPDF` branch is a `pass`, and the
function unconditionally returns the conversion-required error dict built
from `reason`; no OCR call, PDF conversion, or image conversion happens. -/
def process_doc_with_ocr_fallback (reason : String) : PyVal :=
  .dict [ ("error", .str "doc_processing_requires_conversion")
        , ("detail", .str ("Cannot process .doc files directly. " ++ reason ++ ". " ++
            "Please convert .doc to .pdf or .docx format, or use OCR processing. " ++
            "Alternatively, install textract with system dependencies (antiword, etc.) for direct processing."))
        , ("suggestion", .str "Convert DOC to DOCX/PDF format or use OCR via image conversion") ]

/-- Embedding of `_process_doc(file_bytes, prompt, tool_parameters)`.
`hasTextract` is the `HAS_TEXTRACT` capability flag; `extractOutcome` the
outcome of `_extract_text_from_doc` (`.error e` when it raises, with `e`
the string of the raised exception). -/
def process_doc (hasTextract : Bool) (extractOutcome : Except String PyVal) : PyVal :=
  if hasTextract then
    match extractOutcome with
    | .ok r => r
    | .error e => process_doc_with_ocr_fallback e
  else
    process_doc_with_ocr_fallback "textract not available"

/- ## Inbound operation (`SmartDocParserTool._invoke`) -/

/-- Messages the tool can yield: `create_text_message` and
`create_json_message`. -/
inductive Msg where
  | text (s : String)
  | json (v : PyVal)

/-- Outcome of `_download_and_detect_file`: `.failure` is its `except`
branch (`return None, "unknown"`), `.ok bs` a completed download with body
`bs` (possibly empty). -/
inductive DownloadOutcome where
  | failure
  | ok (fileBytes : List Nat)

/-- Python `"error" in result` on a dict result, with the `isinstance`
check of the source. -/
def isErrorDict (v : PyVal) : Bool :=
  match v with
  | .dict es => es.any (fun e => e.1 = "error")
  | _ => false

/-- Embedding of `_invoke(tool_parameters)`.  `rawPrompt` is the string the
source strips (`str(tool_parameters.get("prompt") or "").strip()`);
`fileUrl` is the URL after `_extract_file_url` and `_absolutize_url`
(string-valued plumbing with no effect on message emission, so the
embedding quantifies over its result); `dl` the transport outcome;
`procOutcome` the outcome of `_process_file_by_type` (`.error e` when
processing raises, caught by the outer `try` as `processing_failed`);
`dumps` the stdlib JSON serialization used by `_format_text_output`. -/
def invoke (rawPrompt fileUrl : String) (dl : DownloadOutcome)
    (procOutcome : Except String PyVal) (dumps : PyVal → String) : List Msg :=
  let prompt := pyStrip rawPrompt
  if prompt = "" then [.text "Missing required parameter: prompt"]
  else if fileUrl = "" then [.text "Missing required parameter: file_url"]
  else if !(strStartsWith fileUrl "http://" || strStartsWith fileUrl "https://") then
    [.json (.dict [ ("error", .str "invalid_file_url")
                  , ("detail", .str "`file_url` must start with http:// or https://")
                  , ("value", .str fileUrl) ])]
  else
    match dl with
    | .failure =>
      [.json (.dict [("error", .str "download_failed"), ("detail", .str "Could not download or read the file")])]
    | .ok bs =>
      if bs.isEmpty then
        [.json (.dict [("error", .str "download_failed"), ("detail", .str "Could not download or read the file")])]
      else
        match procOutcome with
        | .error e => [.json (.dict [("error", .str "processing_failed"), ("detail", .str e)])]
        | .ok result =>
          if isErrorDict result then [.json result]
          else [.text (dumps result), .json result]

/- ## Projections used by the theorem statements -/

/-- Dict lookup lifted to `PyVal` (`none` on a non-dict). -/
def pyDictGet (v : PyVal) (key : String) : Option PyVal :=
  match v with
  | .dict es => dictGet es key
  | _ => none

/-- The page array of a result dict (empty on any other shape). -/
def ocrPages (v : PyVal) : List PyVal :=
  match pyDictGet v "pages" with
  | some (.list ps) => ps
  | _ => []

/-- The three config values `_call_ocr_api` resolves, in source order:
`(api_key, base_url, model)`. -/
def resolveOcrConfig (paramGet credGet : String → Option String) : String × String × String :=
  (resolve_api_key paramGet credGet, resolve_base_url credGet, resolve_model paramGet credGet)

/- ## Helper lemmas -/

/-- Truncation behavior of the rendering loop: with no earlier throwing
page, a throwing page ends the loop keeping exactly the urls accumulated
before it. -/
theorem renderLoop_until_throws (rest : List RenderOutcome) :
    ∀ (good : List RenderOutcome) (acc : List String),
      (∀ x ∈ good, x ≠ RenderOutcome.throws) →
      renderLoop (good ++ RenderOutcome.throws :: rest) acc = renderLoop good acc := by
  intro good
  induction good with
  | nil => intro acc _; rfl
  | cons x t ih =>
    intro acc h
    cases x with
    | ok b =>
      exact ih (("data:image/png;base64," ++ b) :: acc)
        (fun y hy => h y (List.mem_cons_of_mem _ hy))
    | notPil =>
      exact ih acc (fun y hy => h y (List.mem_cons_of_mem _ hy))
    | throws =>
      exact absurd rfl (h _ (List.mem_cons_self _ _))

/-- Length of the rendering loop output when every page renders. -/
theorem renderLoop_all_ok_length :
    ∀ (pages : List RenderOutcome) (acc : List String),
      (∀ x ∈ pages, ∃ b, x = RenderOutcome.ok b) →
      (renderLoop pages acc).length = pages.length + acc.length := by
  intro pages
  induction pages with
  | nil => intro acc _; simp [renderLoop]
  | cons x t ih =>
    intro acc h
    obtain ⟨b, rfl⟩ := h x (List.mem_cons_self _ _)
    have h2 := ih (("data:image/png;base64," ++ b) :: acc)
      (fun y hy => h y (List.mem_cons_of_mem _ hy))
    show (renderLoop t _).length = _
    rw [h2]
    simp
    omega

/- ## Claim C4 -/

/-- C4 (confirmed): `_is_pdf_scanned` answers `total trimmed length over
the first min(3, pages) pages < 50` from a successful primary (PyMuPDF)
measurement regardless of the state of the secondary; when the primary is
absent or throws it retries the same measurement with the secondary
(PyPDF2); and when neither capability yields a measurement it returns
`true`. -/
theorem C4_is_pdf_scanned_spec :
    (∀ (ts : List String) (q : Option PdfTextCap),
        is_pdf_scanned (some (.pages ts)) q = true ↔ scannedMeasure ts < 50) ∧
    (∀ ts : List String,
        is_pdf_scanned none (some (.pages ts)) = true ↔ scannedMeasure ts < 50) ∧
    (∀ ts : List String,
        is_pdf_scanned (some .throws) (some (.pages ts)) = true ↔ scannedMeasure ts < 50) ∧
    is_pdf_scanned none none = true ∧
    is_pdf_scanned (some .throws) (some .throws) = true ∧
    is_pdf_scanned none (some .throws) = true ∧
    is_pdf_scanned (some .throws) none = true :=
  ⟨fun _ _ => ⟨of_decide_eq_true, decide_eq_true⟩,
   fun _ => ⟨of_decide_eq_true, decide_eq_true⟩,
   fun _ => ⟨of_decide_eq_true, decide_eq_true⟩,
   rfl, rfl, rfl, rfl⟩

/-- Witness for C4 at a concrete short-text document. -/
theorem C4_is_pdf_scanned_spec_witness :
    is_pdf_scanned (some (.pages ["short text"])) none = true :=
  (C4_is_pdf_scanned_spec.1 ["short text"] none).2 (by decide)

/- ## Claim C6 -/

/-- C6 (confirmed): when textract is unavailable, or present but its
extraction raises, `_process_doc` returns the terminal
`doc_processing_requires_conversion` error with a detail and a suggestion
string, and no page set is produced (the embedding of this path calls no
OCR, PDF-conversion, or image-conversion capability — `process_doc` takes
none). -/
theorem C6_doc_conversion_required (outcome : Except String PyVal) (e : String) :
    (pyDictGet (process_doc false outcome) "error" =
        some (.str "doc_processing_requires_conversion") ∧
     pyDictGet (process_doc false outcome) "detail" =
        some (.str ("Cannot process .doc files directly. " ++ "textract not available" ++ ". " ++
          "Please convert .doc to .pdf or .docx format, or use OCR processing. " ++
          "Alternatively, install textract with system dependencies (antiword, etc.) for direct processing.")) ∧
     pyDictGet (process_doc false outcome) "suggestion" =
        some (.str "Convert DOC to DOCX/PDF format or use OCR via image conversion") ∧
     pyDictGet (process_doc false outcome) "pages" = none ∧
     pyDictGet (process_doc false outcome) "extraction_method" = none) ∧
    (pyDictGet (process_doc true (.error e)) "error" =
        some (.str "doc_processing_requires_conversion") ∧
     pyDictGet (process_doc true (.error e)) "detail" =
        some (.str ("Cannot process .doc files directly. " ++ e ++ ". " ++
          "Please convert .doc to .pdf or .docx format, or use OCR processing. " ++
          "Alternatively, install textract with system dependencies (antiword, etc.) for direct processing.")) ∧
     pyDictGet (process_doc true (.error e)) "suggestion" =
        some (.str "Convert DOC to DOCX/PDF format or use OCR via image conversion") ∧
     pyDictGet (process_doc true (.error e)) "pages" = none ∧
     pyDictGet (process_doc true (.error e)) "extraction_method" = none) :=
  ⟨⟨rfl, rfl, rfl, rfl, rfl⟩, ⟨rfl, rfl, rfl, rfl, rfl⟩⟩

/- ## Claim C2 -/

/-- C2 counterexample: a two-page document whose second page render throws
yields the one-element partial prefix, not the empty sequence the claim
requires on any rendering failure. -/
theorem C2_truncated_sequence_counterexample :
    convert_pdf_to_data_urls (some [RenderOutcome.ok "iVBOR", RenderOutcome.throws]) =
      ["data:image/png;base64,iVBOR"] ∧
    convert_pdf_to_data_urls (some [RenderOutcome.ok "iVBOR", RenderOutcome.throws]) ≠ [] :=
  ⟨rfl, by decide⟩

/-- C2 (amended): a failure to open the whole document yields the empty
sequence; a page-level failure mid-iteration ends the loop and returns the
data-URLs of the pages rendered before it (a partial prefix); when every
page renders, one data-URL per page is returned. -/
theorem C2_render_failure_behavior :
    convert_pdf_to_data_urls none = [] ∧
    (∀ (good rest : List RenderOutcome),
        (∀ x ∈ good, x ≠ RenderOutcome.throws) →
        convert_pdf_to_data_urls (some (good ++ RenderOutcome.throws :: rest)) =
          convert_pdf_to_data_urls (some good)) ∧
    (∀ pages : List RenderOutcome,
        (∀ x ∈ pages, ∃ b, x = RenderOutcome.ok b) →
        (convert_pdf_to_data_urls (some pages)).length = pages.length) := by
  refine ⟨rfl, ?_, ?_⟩
  · intro good rest h
    exact renderLoop_until_throws rest good [] h
  · intro pages h
    have h2 := renderLoop_all_ok_length pages [] h
    simpa using h2

/-- Witness for C2 (amended) at a concrete document failing on page 2. -/
theorem C2_render_failure_behavior_witness :
    convert_pdf_to_data_urls
        (some [RenderOutcome.ok "iVBOR", RenderOutcome.throws, RenderOutcome.ok "Zz"]) =
      convert_pdf_to_data_urls (some [RenderOutcome.ok "iVBOR"]) :=
  C2_render_failure_behavior.2.1 [RenderOutcome.ok "iVBOR"] [RenderOutcome.ok "Zz"] (by decide)

/- ## Claim C9 -/

/-- C9 counterexample: a per-call `base_url` override is ignored — the
resolved base URL (second component) is the stored credential, not the
override the claim says takes precedence. -/
theorem C9_base_url_override_ignored_counterexample :
    (resolveOcrConfig
        (fun k => if k = "base_url" then some "http://override.example" else none)
        (fun k => if k = "base_url" then some "http://stored.example" else none)).2.1 =
      "http://stored.example" ∧
    (resolveOcrConfig
        (fun k => if k = "base_url" then some "http://override.example" else none)
        (fun k => if k = "base_url" then some "http://stored.example" else none)).2.1 ≠
      "http://override.example" :=
  ⟨rfl, by decide⟩

/-- C9 (amended): `api_key` and `model` resolve per call as override →
stored credential → default (the empty string for `api_key`, `qwen-vl-ocr`
for `model`), an override winning whenever the parameter is present;
`base_url` resolves as stored credential → fixed default only and is
independent of the per-call parameters. -/
theorem C9_credential_resolution (paramGet credGet : String → Option String) :
    (∀ o, paramGet "api_key" = some o →
        resolve_api_key paramGet credGet = pyStrip (pyOrStr (some o) "")) ∧
    (paramGet "api_key" = none →
        resolve_api_key paramGet credGet = pyStrip (pyOrStr (credGet "api_key") "")) ∧
    (∀ o, paramGet "model" = some o →
        resolve_model paramGet credGet = pyStrip (pyOrStr (some o) "qwen-vl-ocr")) ∧
    (paramGet "model" = none →
        resolve_model paramGet credGet = pyStrip (pyOrStr (credGet "model") "qwen-vl-ocr")) ∧
    (paramGet "model" = none → credGet "model" = none →
        resolve_model paramGet credGet = "qwen-vl-ocr") ∧
    (∀ c, credGet "base_url" = some c → c ≠ "" →
        resolve_base_url credGet = pyStrip c) ∧
    (credGet "base_url" = none →
        resolve_base_url credGet = "https://dashscope.aliyuncs.com/compatible-mode/v1") ∧
    (∀ paramGet2, (resolveOcrConfig paramGet credGet).2.1 =
        (resolveOcrConfig paramGet2 credGet).2.1) := by
  refine ⟨?_, ?_, ?_, ?_, ?_, ?_, ?_, fun _ => rfl⟩
  · intro o h; unfold resolve_api_key; rw [h]
  · intro h; unfold resolve_api_key; rw [h]
  · intro o h; unfold resolve_model; rw [h]
  · intro h; unfold resolve_model; rw [h]
  · intro h1 h2; unfold resolve_model; rw [h1, h2]; rfl
  · intro c h hne; unfold resolve_base_url; rw [h]; simp [pyOrStr, hne]
  · intro h; unfold resolve_base_url; rw [h]; rfl

/-- Witness for C9 (amended): a present `api_key` override wins over the
stored credential. -/
theorem C9_credential_resolution_witness :
    resolve_api_key (fun k => if k = "api_key" then some "K-OVERRIDE" else none)
        (fun k => if k = "api_key" then some "K-STORED" else none) = "K-OVERRIDE" := by
  have h := (C9_credential_resolution
      (fun k => if k = "api_key" then some "K-OVERRIDE" else none)
      (fun k => if k = "api_key" then some "K-STORED" else none)).1 "K-OVERRIDE" rfl
  exact h

/- ## Claim C10 -/

/-- C10 (confirmed): a completed download with a zero-length body emits the
`download_failed` structured error with the same payload as a transport
failure, and the result is independent of what any extraction pipeline
would have produced — the empty byte string is never dispatched. -/
theorem C10_empty_download_failed (rawPrompt fileUrl : String)
    (hp : pyStrip rawPrompt ≠ "")
    (hu : (strStartsWith fileUrl "http://" || strStartsWith fileUrl "https://") = true) :
    ∀ (proc proc2 : Except String PyVal) (dumps dumps2 : PyVal → String),
      invoke rawPrompt fileUrl (.ok []) proc dumps =
        [Msg.json (.dict [("error", .str "download_failed"),
                          ("detail", .str "Could not download or read the file")])] ∧
      invoke rawPrompt fileUrl (.ok []) proc dumps =
        invoke rawPrompt fileUrl .failure proc2 dumps2 := by
  intro proc proc2 dumps dumps2
  have hf : ¬ (fileUrl = "") := by
    intro h
    subst h
    exact absurd hu (by decide)
  have hA : invoke rawPrompt fileUrl (.ok []) proc dumps =
      [Msg.json (.dict [("error", .str "download_failed"),
                        ("detail", .str "Could not download or read the file")])] := by
    unfold invoke
    dsimp only
    rw [if_neg hp, if_neg hf, hu]
    rfl
  have hB : invoke rawPrompt fileUrl .failure proc2 dumps2 =
      [Msg.json (.dict [("error", .str "download_failed"),
                        ("detail", .str "Could not download or read the file")])] := by
    unfold invoke
    dsimp only
    rw [if_neg hp, if_neg hf, hu]
    rfl
  exact ⟨hA, hA.trans hB.symm⟩

/-- Witness for C10 at concrete inputs. -/
theorem C10_empty_download_failed_witness :
    invoke "summarize" "http://files.local/a.pdf" (.ok []) (.ok (.dict [])) (fun _ => "") =
      [Msg.json (.dict [("error", .str "download_failed"),
                        ("detail", .str "Could not download or read the file")])] :=
  (C10_empty_download_failed "summarize" "http://files.local/a.pdf" (by decide) (by decide)
    (.ok (.dict [])) (.ok (.dict [])) (fun _ => "") (fun _ => "")).1

/- ## Claim C1 -/

/-- C1 counterexample: a URL-shape validation failure (still before any
network access) emits exactly one structured-data message and no text
message, a count/combination the claim rules out. -/
theorem C1_single_structured_message_counterexample :
    invoke "extract the fields" "not-a-url" .failure (.ok (.dict [])) (fun _ => "") =
      [Msg.json (.dict [("error", .str "invalid_file_url"),
                        ("detail", .str "`file_url` must start with http:// or https://"),
                        ("value", .str "not-a-url")])] := rfl

/-- C1 (amended): every invocation emits exactly one text-only message
(missing prompt or missing file URL), or exactly one structured-data
message (URL-shape validation failure, download failure, a pipeline error
result, or a processing exception), or exactly two messages — one text
followed by one structured-data message (success). -/
theorem C1_message_shapes (rawPrompt fileUrl : String) (dl : DownloadOutcome)
    (proc : Except String PyVal) (dumps : PyVal → String) :
    (∃ s, invoke rawPrompt fileUrl dl proc dumps = [Msg.text s]) ∨
    (∃ v, invoke rawPrompt fileUrl dl proc dumps = [Msg.json v]) ∨
    (∃ s v, invoke rawPrompt fileUrl dl proc dumps = [Msg.text s, Msg.json v]) := by
  unfold invoke
  by_cases h1 : pyStrip rawPrompt = ""
  · rw [if_pos h1]; exact Or.inl ⟨_, rfl⟩
  rw [if_neg h1]
  by_cases h2 : fileUrl = ""
  · rw [if_pos h2]; exact Or.inl ⟨_, rfl⟩
  rw [if_neg h2]
  by_cases h3 : (!(strStartsWith fileUrl "http://" || strStartsWith fileUrl "https://")) = true
  · rw [if_pos h3]; exact Or.inr (Or.inl ⟨_, rfl⟩)
  rw [if_neg h3]
  cases dl with
  | failure => exact Or.inr (Or.inl ⟨_, rfl⟩)
  | ok bs =>
    dsimp only
    by_cases h4 : bs.isEmpty = true
    · rw [if_pos h4]; exact Or.inr (Or.inl ⟨_, rfl⟩)
    rw [if_neg h4]
    cases proc with
    | error e => exact Or.inr (Or.inl ⟨_, rfl⟩)
    | ok result =>
      dsimp only
      by_cases h5 : isErrorDict result = true
      · rw [if_pos h5]; exact Or.inr (Or.inl ⟨_, rfl⟩)
      rw [if_neg h5]
      exact Or.inr (Or.inr ⟨_, _, rfl⟩)

/- ## Claim C3 -/

/-- Length of the OCR loop output: one entry per input image. -/
theorem ocrLoop_length (jl : String → Option PyVal) (world : Nat → Except String ChatResp) :
    ∀ (imgs : List String) (idx : Nat), (ocrLoop jl world idx imgs).length = imgs.length := by
  intro imgs
  induction imgs with
  | nil => intro idx; rfl
  | cons x t ih => intro idx; simp [ocrLoop, ih]

/-- Entry `i` of the OCR loop started at `idx` reports page `idx + i` with
the outcome of the request for that page. -/
theorem ocrLoop_getD (jl : String → Option PyVal) (world : Nat → Except String ChatResp) :
    ∀ (imgs : List String) (idx i : Nat), i < imgs.length →
      (ocrLoop jl world idx imgs).getD i (.dict []) =
        (match world (idx + i) with
         | .error e => PyVal.dict [("page", .int (idx + i)), ("error", .str e)]
         | .ok resp =>
            PyVal.dict [("page", .int (idx + i)),
                        ("content", safe_json_loads jl (pageText resp))]) := by
  intro imgs
  induction imgs with
  | nil => intro idx i h; exact absurd h (by simp)
  | cons x t ih =>
    intro idx i h
    cases i with
    | zero => simp [ocrLoop]
    | succ n =>
      have h2 : n < t.length := by simpa using Nat.lt_of_succ_lt_succ (by simpa using h)
      have h3 := ih (idx + 1) n h2
      have harith : idx + 1 + n = idx + (n + 1) := by omega
      rw [harith] at h3
      simpa [ocrLoop] using h3

/-- C3 (confirmed): `_call_ocr_api` returns a result tagged `ocr_api` whose
page array has exactly one entry per input image, entry `i` carrying the
1-based page number `i + 1`; a failed request is recorded as
`{page, error}` in place while later pages are still processed. -/
theorem C3_ocr_batch_shape (images : List String) (jl : String → Option PyVal)
    (world : Nat → Except String ChatResp) (paramGet credGet : String → Option String)
    (i : Nat) (h : i < images.length) :
    pyDictGet (call_ocr_api images jl world paramGet credGet) "extraction_method" =
      some (.str "ocr_api") ∧
    (ocrPages (call_ocr_api images jl world paramGet credGet)).length = images.length ∧
    (ocrPages (call_ocr_api images jl world paramGet credGet)).getD i (.dict []) =
      (match world (i + 1) with
       | .error e => PyVal.dict [("page", .int (i + 1)), ("error", .str e)]
       | .ok resp =>
          PyVal.dict [("page", .int (i + 1)),
                      ("content", safe_json_loads jl (pageText resp))]) := by
  refine ⟨rfl, ocrLoop_length jl world images 1, ?_⟩
  have h3 := ocrLoop_getD jl world images 1 i h
  rw [Nat.add_comm 1 i] at h3
  exact h3

/-- Witness for C3: a three-image batch whose second request fails has
three entries, the second recording the failure. -/
theorem C3_ocr_batch_shape_witness :
    pyDictGet (call_ocr_api ["u1", "u2", "u3"] (fun _ => none)
        (fun n => if n = 2 then .error "network down" else .ok ⟨[some "\x7b\x7d"]⟩)
        (fun _ => none) (fun _ => none)) "extraction_method" = some (.str "ocr_api") ∧
    (ocrPages (call_ocr_api ["u1", "u2", "u3"] (fun _ => none)
        (fun n => if n = 2 then .error "network down" else .ok ⟨[some "\x7b\x7d"]⟩)
        (fun _ => none) (fun _ => none))).length = 3 ∧
    (ocrPages (call_ocr_api ["u1", "u2", "u3"] (fun _ => none)
        (fun n => if n = 2 then .error "network down" else .ok ⟨[some "\x7b\x7d"]⟩)
        (fun _ => none) (fun _ => none))).getD 1 (.dict []) =
      PyVal.dict [("page", .int 2), ("error", .str "network down")] := by
  have h := C3_ocr_batch_shape ["u1", "u2", "u3"] (fun _ => none)
    (fun n => if n = 2 then .error "network down" else .ok ⟨[some "\x7b\x7d"]⟩)
    (fun _ => none) (fun _ => none) 1 (by decide)
  exact ⟨h.1, h.2.1, h.2.2⟩

/- ## Claim C5 -/

/-- Exclusion of extension matches: a path cannot end with two suffixes
neither of which is a suffix of the other. -/
theorem strEndsWith_disjoint {p a b : String}
    (h : strEndsWith p a = true)
    (hab : List.isSuffixOf a.data b.data = false)
    (hba : List.isSuffixOf b.data a.data = false) :
    strEndsWith p b = false := by
  unfold strEndsWith at h ⊢
  by_contra hb
  rw [Bool.not_eq_false] at hb
  have h1 : a.data <:+ p.data := List.isSuffixOf_iff_suffix.mp h
  have h2 : b.data <:+ p.data := List.isSuffixOf_iff_suffix.mp hb
  rcases List.suffix_or_suffix_of_suffix h1 h2 with hs | hs
  · rw [← List.isSuffixOf_iff_suffix] at hs
    rw [hab] at hs
    exact absurd hs (by decide)
  · rw [← List.isSuffixOf_iff_suffix] at hs
    rw [hba] at hs
    exact absurd hs (by decide)

/-- C5 (confirmed): whenever the lower-cased URL path ends with a
supported extension, the detector returns the tag of that extension for every
byte sample — the bytes are never consulted. -/
theorem C5_extension_wins (path : String) (bytes : List Nat) :
    (∀ e ∈ SUPPORTED_IMAGE_TYPES, strEndsWith (pyLower path) e = true →
        detect_file_type path bytes = .image) ∧
    (strEndsWith (pyLower path) ".pdf" = true → detect_file_type path bytes = .pdf) ∧
    (strEndsWith (pyLower path) ".docx" = true → detect_file_type path bytes = .docx) ∧
    (strEndsWith (pyLower path) ".doc" = true → detect_file_type path bytes = .doc) := by
  refine ⟨?_, ?_, ?_, ?_⟩
  · intro e he h
    have himg : SUPPORTED_IMAGE_TYPES.any (fun x => strEndsWith (pyLower path) x) = true :=
      List.any_eq_true.mpr ⟨e, he, h⟩
    unfold detect_file_type
    dsimp only
    rw [himg]
    rfl
  · intro h
    have himg : SUPPORTED_IMAGE_TYPES.any (fun x => strEndsWith (pyLower path) x) = false := by
      rw [List.any_eq_false]
      intro x hx
      fin_cases hx <;>
        · rw [Bool.not_eq_true]
          exact strEndsWith_disjoint h (by decide) (by decide)
    have hpdf : SUPPORTED_PDF_TYPES.any (fun x => strEndsWith (pyLower path) x) = true :=
      List.any_eq_true.mpr ⟨".pdf", by decide, h⟩
    unfold detect_file_type
    dsimp only
    rw [himg, hpdf]
    rfl
  · intro h
    have himg : SUPPORTED_IMAGE_TYPES.any (fun x => strEndsWith (pyLower path) x) = false := by
      rw [List.any_eq_false]
      intro x hx
      fin_cases hx <;>
        · rw [Bool.not_eq_true]
          exact strEndsWith_disjoint h (by decide) (by decide)
    have hpdf : SUPPORTED_PDF_TYPES.any (fun x => strEndsWith (pyLower path) x) = false := by
      rw [List.any_eq_false]
      intro x hx
      fin_cases hx <;>
        · rw [Bool.not_eq_true]
          exact strEndsWith_disjoint h (by decide) (by decide)
    have hdocx : SUPPORTED_DOCX_TYPES.any (fun x => strEndsWith (pyLower path) x) = true :=
      List.any_eq_true.mpr ⟨".docx", by decide, h⟩
    unfold detect_file_type
    dsimp only
    rw [himg, hpdf, hdocx]
    rfl
  · intro h
    have himg : SUPPORTED_IMAGE_TYPES.any (fun x => strEndsWith (pyLower path) x) = false := by
      rw [List.any_eq_false]
      intro x hx
      fin_cases hx <;>
        · rw [Bool.not_eq_true]
          exact strEndsWith_disjoint h (by decide) (by decide)
    have hpdf : SUPPORTED_PDF_TYPES.any (fun x => strEndsWith (pyLower path) x) = false := by
      rw [List.any_eq_false]
      intro x hx
      fin_cases hx <;>
        · rw [Bool.not_eq_true]
          exact strEndsWith_disjoint h (by decide) (by decide)
    have hdocx : SUPPORTED_DOCX_TYPES.any (fun x => strEndsWith (pyLower path) x) = false := by
      rw [List.any_eq_false]
      intro x hx
      fin_cases hx <;>
        · rw [Bool.not_eq_true]
          exact strEndsWith_disjoint h (by decide) (by decide)
    have hdoc : SUPPORTED_DOC_TYPES.any (fun x => strEndsWith (pyLower path) x) = true :=
      List.any_eq_true.mpr ⟨".doc", by decide, h⟩
    unfold detect_file_type
    dsimp only
    rw [himg, hpdf, hdocx, hdoc]
    rfl

/-- Witness for C5: an upper-case image extension beats PDF magic bytes. -/
theorem C5_extension_wins_witness :
    detect_file_type "scan.PNG" pdfMagic = FileType.image :=
  (C5_extension_wins "scan.PNG" pdfMagic).1 ".png" (by decide) (by decide)

/- ## Claim C7 -/

/-- Lookup distributes over dict concatenation. -/
theorem dictGet_append (xs ys : List (String × PyVal)) (k : String) :
    dictGet (xs ++ ys) k =
      (match dictGet xs k with
       | some v => some v
       | none => dictGet ys k) := by
  induction xs with
  | nil => rfl
  | cons e t ih =>
    obtain ⟨a, v⟩ := e
    by_cases hk : a = k
    · simp [dictGet, hk]
    · simp [dictGet, hk, ih]

/-- A field entry never contributes a different key. -/
theorem dictGet_fieldEntry_ne (n k : String) (h : ¬ n = k) (g : Bool) (f : List PyVal) :
    dictGet (fieldEntry n g f) k = none := by
  unfold fieldEntry
  split
  · split
    · rfl
    · simp [dictGet, h]
    · simp [dictGet, h]
  · rfl

/-- Lookup of the own key of a field in its entry: nothing when gated off or no
match, the single match alone, the whole sequence for several. -/
theorem fieldEntry_cases (n : String) (g : Bool) (f : List PyVal) :
    (g = false → dictGet (fieldEntry n g f) n = none) ∧
    (f = [] → dictGet (fieldEntry n g f) n = none) ∧
    (∀ m, g = true → f = [m] → dictGet (fieldEntry n g f) n = some m) ∧
    (∀ m1 m2 ms, g = true → f = m1 :: m2 :: ms →
        dictGet (fieldEntry n g f) n = some (.list (m1 :: m2 :: ms))) := by
  refine ⟨?_, ?_, ?_, ?_⟩
  · intro h; subst h; rfl
  · intro h; subst h; cases g <;> rfl
  · intro m hg hf; subst hg; subst hf; simp [fieldEntry, dictGet]
  · intro m1 m2 ms hg hf; subst hg; subst hf; simp [fieldEntry, dictGet]

/-- C7 counterexample: the phone pattern carries three capture groups, so a
single match stores the tuple of the groups, not the matched string
`"555-123-4567"` the claim requires. -/
theorem C7_phone_tuple_counterexample :
    dictGet (extract_basic_fields "Call 555-123-4567 now" "extract phone") "phone" =
      some (PyVal.tup ["555", "123", "4567"]) ∧
    dictGet (extract_basic_fields "Call 555-123-4567 now" "extract phone") "phone" ≠
      some (PyVal.str "555-123-4567") :=
  ⟨rfl, fun h => nomatch h⟩

/-- C7 (amended): a field is attempted only when its name or plural occurs
case-insensitively in the prompt; with zero pattern matches its key is
absent; with exactly one match the value is the single `findall` item (the
matched string for the groupless email/date/amount patterns, the tuple of
the three captured groups for phone); with several matches the value is
the sequence of those items. -/
theorem C7_field_extraction (text prompt : String) :
    (fieldGate "email" prompt = false →
        dictGet (extract_basic_fields text prompt) "email" = none) ∧
    (emailFindall text = [] →
        dictGet (extract_basic_fields text prompt) "email" = none) ∧
    (∀ m, fieldGate "email" prompt = true → emailFindall text = [m] →
        dictGet (extract_basic_fields text prompt) "email" = some m) ∧
    (∀ m1 m2 ms, fieldGate "email" prompt = true → emailFindall text = m1 :: m2 :: ms →
        dictGet (extract_basic_fields text prompt) "email" = some (.list (m1 :: m2 :: ms))) ∧
    (fieldGate "phone" prompt = false →
        dictGet (extract_basic_fields text prompt) "phone" = none) ∧
    (phoneFindall text = [] →
        dictGet (extract_basic_fields text prompt) "phone" = none) ∧
    (∀ m, fieldGate "phone" prompt = true → phoneFindall text = [m] →
        dictGet (extract_basic_fields text prompt) "phone" = some m) ∧
    (∀ m1 m2 ms, fieldGate "phone" prompt = true → phoneFindall text = m1 :: m2 :: ms →
        dictGet (extract_basic_fields text prompt) "phone" = some (.list (m1 :: m2 :: ms))) ∧
    (fieldGate "date" prompt = false →
        dictGet (extract_basic_fields text prompt) "date" = none) ∧
    (dateFindall text = [] →
        dictGet (extract_basic_fields text prompt) "date" = none) ∧
    (∀ m, fieldGate "date" prompt = true → dateFindall text = [m] →
        dictGet (extract_basic_fields text prompt) "date" = some m) ∧
    (∀ m1 m2 ms, fieldGate "date" prompt = true → dateFindall text = m1 :: m2 :: ms →
        dictGet (extract_basic_fields text prompt) "date" = some (.list (m1 :: m2 :: ms))) ∧
    (fieldGate "amount" prompt = false →
        dictGet (extract_basic_fields text prompt) "amount" = none) ∧
    (amountFindall text = [] →
        dictGet (extract_basic_fields text prompt) "amount" = none) ∧
    (∀ m, fieldGate "amount" prompt = true → amountFindall text = [m] →
        dictGet (extract_basic_fields text prompt) "amount" = some m) ∧
    (∀ m1 m2 ms, fieldGate "amount" prompt = true → amountFindall text = m1 :: m2 :: ms →
        dictGet (extract_basic_fields text prompt) "amount" = some (.list (m1 :: m2 :: ms))) := by
  have hemail : dictGet (extract_basic_fields text prompt) "email" =
      dictGet (fieldEntry "email" (fieldGate "email" prompt) (emailFindall text)) "email" := by
    simp only [extract_basic_fields, dictGet_append,
      dictGet_fieldEntry_ne "phone" "email" (by decide),
      dictGet_fieldEntry_ne "date" "email" (by decide),
      dictGet_fieldEntry_ne "amount" "email" (by decide)]
    cases dictGet (fieldEntry "email" (fieldGate "email" prompt) (emailFindall text)) "email" <;> rfl
  have hphone : dictGet (extract_basic_fields text prompt) "phone" =
      dictGet (fieldEntry "phone" (fieldGate "phone" prompt) (phoneFindall text)) "phone" := by
    simp only [extract_basic_fields, dictGet_append,
      dictGet_fieldEntry_ne "email" "phone" (by decide),
      dictGet_fieldEntry_ne "date" "phone" (by decide),
      dictGet_fieldEntry_ne "amount" "phone" (by decide)]
    cases dictGet (fieldEntry "phone" (fieldGate "phone" prompt) (phoneFindall text)) "phone" <;> rfl
  have hdate : dictGet (extract_basic_fields text prompt) "date" =
      dictGet (fieldEntry "date" (fieldGate "date" prompt) (dateFindall text)) "date" := by
    simp only [extract_basic_fields, dictGet_append,
      dictGet_fieldEntry_ne "email" "date" (by decide),
      dictGet_fieldEntry_ne "phone" "date" (by decide),
      dictGet_fieldEntry_ne "amount" "date" (by decide)]
    cases dictGet (fieldEntry "date" (fieldGate "date" prompt) (dateFindall text)) "date" <;> rfl
  have hamount : dictGet (extract_basic_fields text prompt) "amount" =
      dictGet (fieldEntry "amount" (fieldGate "amount" prompt) (amountFindall text)) "amount" := by
    simp only [extract_basic_fields, dictGet_append,
      dictGet_fieldEntry_ne "email" "amount" (by decide),
      dictGet_fieldEntry_ne "phone" "amount" (by decide),
      dictGet_fieldEntry_ne "date" "amount" (by decide)]
  refine ⟨?_, ?_, ?_, ?_, ?_, ?_, ?_, ?_, ?_, ?_, ?_, ?_, ?_, ?_, ?_, ?_⟩
  · intro h; rw [hemail]; exact (fieldEntry_cases _ _ _).1 h
  · intro h; rw [hemail]; exact (fieldEntry_cases _ _ _).2.1 h
  · intro m hg hf; rw [hemail]; exact (fieldEntry_cases _ _ _).2.2.1 m hg hf
  · intro m1 m2 ms hg hf; rw [hemail]; exact (fieldEntry_cases _ _ _).2.2.2 m1 m2 ms hg hf
  · intro h; rw [hphone]; exact (fieldEntry_cases _ _ _).1 h
  · intro h; rw [hphone]; exact (fieldEntry_cases _ _ _).2.1 h
  · intro m hg hf; rw [hphone]; exact (fieldEntry_cases _ _ _).2.2.1 m hg hf
  · intro m1 m2 ms hg hf; rw [hphone]; exact (fieldEntry_cases _ _ _).2.2.2 m1 m2 ms hg hf
  · intro h; rw [hdate]; exact (fieldEntry_cases _ _ _).1 h
  · intro h; rw [hdate]; exact (fieldEntry_cases _ _ _).2.1 h
  · intro m hg hf; rw [hdate]; exact (fieldEntry_cases _ _ _).2.2.1 m hg hf
  · intro m1 m2 ms hg hf; rw [hdate]; exact (fieldEntry_cases _ _ _).2.2.2 m1 m2 ms hg hf
  · intro h; rw [hamount]; exact (fieldEntry_cases _ _ _).1 h
  · intro h; rw [hamount]; exact (fieldEntry_cases _ _ _).2.1 h
  · intro m hg hf; rw [hamount]; exact (fieldEntry_cases _ _ _).2.2.1 m hg hf
  · intro m1 m2 ms hg hf; rw [hamount]; exact (fieldEntry_cases _ _ _).2.2.2 m1 m2 ms hg hf

/-- Witness for C7 (amended): a gated single email match stores the
matched string. -/
theorem C7_field_extraction_witness :
    dictGet (extract_basic_fields "reach me at a@b.com thanks" "send the email") "email" =
      some (PyVal.str "a@b.com") :=
  (C7_field_extraction "reach me at a@b.com thanks" "send the email").2.2.1
    (PyVal.str "a@b.com") rfl rfl

/- ## Claim C8 -/

/-- C8 counterexample: whitespace-only input takes the short-circuit
branch, whose result carries no `word_count` or `character_count` key. -/
theorem C8_empty_text_counterexample :
    process_extracted_text "" "extract the email" =
      PyVal.dict [("raw_text", .str ""), ("extracted_fields", .dict [])] ∧
    pyDictGet (process_extracted_text "" "extract the email") "word_count" = none ∧
    pyDictGet (process_extracted_text "" "extract the email") "character_count" = none :=
  ⟨rfl, rfl, rfl⟩

/-- C8 (amended): for input whose trimmed form is non-empty, the
constructed content carries the four keys, with `word_count` the number of
whitespace-separated words of `raw_text` and `character_count` its length,
both derived from the same `text` stored as `raw_text`. -/
theorem C8_page_content_keys (text prompt : String) (h : ¬ pyStrip text = "") :
    pyDictGet (process_extracted_text text prompt) "raw_text" = some (.str text) ∧
    pyDictGet (process_extracted_text text prompt) "extracted_fields" =
      some (.dict (extract_basic_fields text prompt)) ∧
    pyDictGet (process_extracted_text text prompt) "word_count" =
      some (.int (pySplit text).length) ∧
    pyDictGet (process_extracted_text text prompt) "character_count" =
      some (.int text.length) := by
  unfold process_extracted_text
  rw [if_neg h]
  exact ⟨rfl, rfl, rfl, rfl⟩

/-- Witness for C8 (amended) at a concrete three-word text. -/
theorem C8_page_content_keys_witness :
    pyDictGet (process_extracted_text "hello brave world" "nothing") "word_count" =
      some (PyVal.int 3) :=
  (C8_page_content_keys "hello brave world" "nothing" (by decide)).2.2.1
